import Mathlib

/-!
# Verification of the `better-lookup` resolution-caching layer

A shallow embedding of `src/index.ts` (the `lookup` resolver, its cache
writes, the hosts-file override loader) and of `src/useThrottle.ts` (the
keyed single-flight / TTL-throttle coordinator), together with theorems
settling the specification's claims about them.

Conventions of the embedding:
* JS numbers used as timestamps and TTLs are `Nat` (they are nonnegative
  millisecond / second counts in the source); the one signed quantity,
  the `interval` argument validated by `useThrottle`, is `Int`.
* A JS exception is a value of the `Err` structure; fallible code returns
  `Except Err _`.
* `Record.mk a f e` embeds the source's `{ address, family, expireAt }`
  object; `Option (List Record)` embeds one slot `Cache[hostname]` of the
  module-level cache (`none` = no entry, mirroring JS `undefined`).
-/

/-- One address record as stored in the cache:
`{ address, family, expireAt }` in the source (`AddressInfoDetail`). -/
structure Record where
  address : String
  family : Nat
  expireAt : Nat
deriving DecidableEq, Repr

/-- The projected result shape `{ address, family }` (`AddressInfo`). -/
structure AddressInfo where
  address : String
  family : Nat
deriving DecidableEq, Repr

/-- A JS error value: its `name` (`"Error"`, `"RangeError"`, `"TypeError"`),
`message`, and the `code` / `syscall` / `hostname` own-properties that DNS
errors and the aggregated error carry (`none` = absent / `undefined`). -/
structure Err where
  name : String
  message : String
  code : Option String
  syscall : Option String
  hostname : Option String
deriving DecidableEq, Repr

/-- `MIN_TTL_SEC = 10` in the source. -/
def MIN_TTL_SEC : Nat := 10

/-! ## The throttle coordinator (`useThrottle.ts`)

A `ThrottleTask` is the per-key record `{ interval, lastActive, cache,
queue }`; the waiter set is embedded by its cardinality, which is all the
claims need.  `throttleStep` is one call of the bound `throttle` function
in the non-background mode (the only mode the resolver uses), up to the
point where the caller either becomes the leader (and will run the work),
is served the cached outcome, or is parked in the waiter queue. -/

/-- Per-key throttle task state (`ThrottleTask` in the source). -/
structure ThrottleTask (ε α : Type) where
  interval : Nat
  lastActive : Nat
  cache : Option (Except ε α)
  queued : Nat
deriving Repr

/-- What one call of the throttle function does before any work result is
available: `lead` = this caller cleared the cache, bumped `lastActive` and
will execute the work itself; `served o` = the cached outcome `o` was
returned (or re-thrown) immediately; `queued` = the caller was added to
the waiter queue. -/
inductive StepKind (ε α : Type) where
  | lead
  | served (o : Except ε α)
  | queued
deriving Repr

/-- `true` exactly on `StepKind.lead`: the work is executed only by a
leading call. -/
def StepKind.isLead {ε α : Type} : StepKind ε α → Bool
  | .lead => true
  | _ => false

/-- `true` exactly on `StepKind.queued`. -/
def StepKind.isQueued {ε α : Type} : StepKind ε α → Bool
  | .queued => true
  | _ => false

/-- One call of the throttle function at time `now` (non-background mode),
following the source: if `now - lastActive >= interval` the caller leads
(sets `lastActive = now`, clears the cache, runs the work); otherwise a
cached outcome is served as-is; otherwise the caller joins the queue.
`Nat` subtraction agrees with the JS comparison since `interval ≥ 1` in
every created task. -/
def throttleStep {ε α : Type} (t : ThrottleTask ε α) (now : Nat) :
    ThrottleTask ε α × StepKind ε α :=
  if t.interval ≤ now - t.lastActive then
    ({ t with lastActive := now, cache := none }, .lead)
  else
    match t.cache with
    | some o => (t, .served o)
    | none => ({ t with queued := t.queued + 1 }, .queued)

/-- The leader's completion: store the outcome in the cache and drain the
waiter queue (the `setImmediate` block in the source resolves or rejects
every queued caller with that same outcome and empties the set). -/
def drain {ε α : Type} (t : ThrottleTask ε α) (o : Except ε α) :
    ThrottleTask ε α := { t with cache := some o, queued := 0 }

/-- Run a burst of calls (given by their arrival times) through the task,
collecting what each call did. -/
def stepCalls {ε α : Type} (t : ThrottleTask ε α) :
    List Nat → ThrottleTask ε α × List (StepKind ε α)
  | [] => (t, [])
  | n :: ns =>
    let p := throttleStep t n
    let q := stepCalls p.1 ns
    (q.1, p.2 :: q.2)

/-- The outcome a caller finally observes, when the single leading call's
work finished with outcome `o`: the leader returns (or throws) `o` itself,
a served caller got the outcome it was served, and a queued caller is
resolved or rejected with `o` by the leader's drain. -/
def observe {ε α : Type} (o : Except ε α) : StepKind ε α → Except ε α
  | .lead => o
  | .served c => c
  | .queued => o

/-- Summary of a concurrent burst against one task. -/
structure FlightOut (ε α : Type) where
  leadCount : Nat
  queuedCount : Nat
  observations : List (Except ε α)
  final : ThrottleTask ε α
deriving Repr

/-- A burst of identical calls on one key: a first call at `tLead`, the
rest at `followerTimes`, the (single) leader's work finishing with
outcome `o`.  Counts the calls that executed the work, the calls that
were parked as waiters, and lists every caller's observed outcome. -/
def singleFlight {ε α : Type} (t0 : ThrottleTask ε α) (tLead : Nat)
    (followerTimes : List Nat) (o : Except ε α) : FlightOut ε α :=
  let r := stepCalls t0 (tLead :: followerTimes)
  ⟨(r.2.filter StepKind.isLead).length,
   (r.2.filter StepKind.isQueued).length,
   r.2.map (observe o),
   drain r.1 o⟩

/-- The throttle task registry entry data fixed at creation
(`useThrottle` ignores `interval` / `backgroundUpdate` on later calls for
the same resource). -/
structure TaskEntry where
  interval : Int
  backgroundUpdate : Bool
deriving DecidableEq, Repr

/-- The `RangeError` thrown by `useThrottle` for an interval below 1
(message in the source quotes the word interval). -/
def rangeErr : Err :=
  ⟨"RangeError", "The interval time for throttle must not be smaller than 1",
   none, none, none⟩

/-- `useThrottle(resource, interval, backgroundUpdate)` against the task
registry, embedded as an association list: an interval below 1 throws the
`RangeError` before the registry is consulted or extended; otherwise the
resource's task is reused, or a fresh one is created and registered. -/
def useThrottleModel (resource : String) (interval : Int)
    (backgroundUpdate : Bool) (tasks : List (String × TaskEntry)) :
    Option Err × List (String × TaskEntry) :=
  if interval < 1 then
    (some rangeErr, tasks)
  else
    match tasks.find? (fun p => p.1 = resource) with
    | some _ => (none, tasks)
    | none => (none, tasks ++ [(resource, ⟨interval, backgroundUpdate⟩)])

/-! ## The resolver (`index.ts` `lookup`)

The throttled fetch closure (source lines 166-259) is embedded as a pure
state transformer.  Its inputs that come from the outside world — the
outcome of `dnsPromises.resolve4` / `resolve6` (a list of
`{ address, ttl }` pairs or an error) and the `timestamp()` readings taken
in each branch — are packed in `DnsEnv`.  The single cache slot
`Cache[hostname]` the closure touches is carried through `FetchState`. -/

/-- Upstream behaviour during one fetch: the two DNS query outcomes (each
a list of `(address, ttl)` pairs) and the `timestamp()` value read in the
corresponding success branch. -/
structure DnsEnv where
  resolve4 : Except Err (List (String × Nat))
  resolve6 : Except Err (List (String × Nat))
  now4 : Nat
  now6 : Nat

/-- Mutable state of one fetch: the hostname's cache slot, the `result`
list seeded from the hosts table, the recorded per-family errors, the
`v4updated` flag, and a count of upstream DNS queries issued. -/
structure FetchState where
  cacheSlot : Option (List Record)
  result : List Record
  err4 : Option Err
  err6 : Option Err
  v4updated : Bool
  dnsQueries : Nat
deriving Repr

/-- Stamping of fetched records, as written in the source:
`{ address, family, expireAt: Math.max(ttl + now, MIN_TTL_SEC) }`. -/
def stampRecords (family : Nat) (now : Nat) (records : List (String × Nat)) :
    List Record :=
  records.map fun p => ⟨p.1, family, max (p.2 + now) MIN_TTL_SEC⟩

/-- The source's inner `updateV4`: query A records; on success stamp them,
push them onto `result`, and write them into the cache slot after
filtering out the old family-4 records (keeping other families); on
failure record `err4`. -/
def updateV4 (env : DnsEnv) (s : FetchState) : FetchState :=
  let s := { s with v4updated := true, dnsQueries := s.dnsQueries + 1 }
  match env.resolve4 with
  | .ok records =>
    let v4 := stampRecords 4 env.now4 records
    let slot :=
      match s.cacheSlot with
      | some cs => (cs.filter fun a => a.family ≠ 4) ++ v4
      | none => v4
    { s with result := s.result ++ v4, cacheSlot := some slot }
  | .error e => { s with err4 := some e }

/-- The source's `family 6` branch.  On success: stamp, push onto
`result`; the cache write filters the old family-6 records and appends
the new ones into the local variable, but then reassigns that variable
from `Cache[hostname]` instead of storing it (`cacheSlot =
Cache[hostname]`), so an existing entry is left unchanged; only an absent
entry is populated.  On an `ENODATA`/`queryAaaa` failure with `family`
exactly 6, synthesis: run `updateV4` first if it has not run, then map
the cache slot's records that pass `a.family !== 4` into
`::ffff:`-prefixed family-6 records and write them back in place of the
old family-6 records; reading the slot while it is absent throws, which
the inner `catch` turns into recording the original error as `err6`.
Every other failure records `err6`. -/
def runV6 (env : DnsEnv) (family : Nat) (s : FetchState) : FetchState :=
  let s := { s with dnsQueries := s.dnsQueries + 1 }
  match env.resolve6 with
  | .ok records =>
    let v6 := stampRecords 6 env.now6 records
    let slot :=
      match s.cacheSlot with
      | some cs => some cs
      | none => some v6
    { s with result := s.result ++ v6, cacheSlot := slot }
  | .error e =>
    if e.code = some "ENODATA" ∧ e.syscall = some "queryAaaa" ∧ family = 6 then
      let s1 := if s.v4updated then s else updateV4 env s
      match s1.cacheSlot with
      | none => { s1 with err6 := some e }
      | some cs =>
        let v4 := cs.filter fun a => a.family ≠ 4
        let v6 := v4.map fun r => Record.mk ("::ffff:" ++ r.address) 6 r.expireAt
        { s1 with cacheSlot := some ((cs.filter fun a => a.family ≠ 6) ++ v6) }
    else { s with err6 := some e }

/-- The aggregated both-families-failed error the source throws:
`Object.assign(new Error(` queryA and queryAaaa ENODATA hostname `),
{ errno: undefined, code: "ENODATA", syscall: undefined, hostname })`. -/
def mkAggErr (hostname : String) : Err :=
  ⟨"Error", "queryA and queryAaaa ENODATA " ++ hostname,
   some "ENODATA", none, some hostname⟩

/-- The fetch closure's final throw/return chain. -/
def finishFetch (hostname : String) (family : Nat) (s : FetchState) :
    Except Err (List Record) :=
  match s.err4, s.err6, family with
  | some _, some _, 0 => .error (mkAggErr hostname)
  | some e4, _, 4 => .error e4
  | _, some e6, 6 => .error e6
  | _, _, _ => .ok s.result

/-- The whole throttled fetch closure for one hostname: seed `result`
from the hosts table's slot, run the family-4 branch when `family` is 0
or 4, the family-6 branch when `family` is 0 or 6, then aggregate.
Returns the outcome together with the final state (cache slot, query
count). -/
def runFetch (hostname : String) (family : Nat)
    (hosts cacheSlot : Option (List Record)) (env : DnsEnv) :
    Except Err (List Record) × FetchState :=
  let s0 : FetchState := ⟨cacheSlot, hosts.getD [], none, none, false, 0⟩
  let s1 := if family = 0 ∨ family = 4 then updateV4 env s0 else s0
  let s2 := if family = 0 ∨ family = 6 then runV6 env family s1 else s1
  (finishFetch hostname family s2, s2)

/-- The `.then` projection down to `{ address, family }`. -/
def project (rs : List Record) : List AddressInfo :=
  rs.map fun r => ⟨r.address, r.family⟩

/-- A shaped lookup result: one address string, or the full list. -/
inductive Shaped where
  | single (address : String)
  | many (records : List AddressInfo)
deriving DecidableEq, Repr

/-- The `No matching IPV... available for ...` error of the shaping
step. -/
def noMatchErr (family : Nat) (hostname : String) (count : Nat) : Err :=
  ⟨"Error",
   "No matching IPV" ++ toString family ++ " available for " ++ hostname ++
     ", " ++ toString count ++ " records in cache",
   none, none, none⟩

/-- The `TypeError` JS raises when `addresses[0].address` is read off an
empty list in the unspecified-family single-result branch. -/
def emptyReadErr : Err :=
  ⟨"TypeError", "Cannot read properties of undefined", none, none, none⟩

/-- The final shaping of the resolved list (source lines 269-287,
promise path): with `all`, the list filtered by `family` when one was
requested; without `all`, the first record of the requested family (a
`No matching IPV...` error when none) or, family unspecified, the first
record of the list. -/
def shape (hostname : String) (family : Nat) (all : Bool)
    (addresses : List AddressInfo) : Except Err Shaped :=
  if all then
    if family ≠ 0 then
      .ok (.many (addresses.filter fun a => a.family = family))
    else
      .ok (.many addresses)
  else
    if family ≠ 0 then
      match addresses.find? (fun a => a.family = family) with
      | some a => .ok (.single a.address)
      | none => .error (noMatchErr family hostname addresses.length)
    else
      match addresses with
      | a :: _ => .ok (.single a.address)
      | [] => .error emptyReadErr

/-- The cache-read step (source lines 148-159): the slot's records that
are still live (`expireAt > now`), further filtered by `family` when one
was requested.  An absent slot reads as the empty list. -/
def cacheLive (slot : Option (List Record)) (now : Nat) (family : Nat) :
    List Record :=
  match slot with
  | none => []
  | some entry =>
    let addresses := entry.filter fun a => now < a.expireAt
    if family ≠ 0 then addresses.filter fun a => a.family = family
    else addresses

/-- Everything one `lookup` call produces and touches. -/
structure LookupOut where
  result : Except Err Shaped
  cacheSlot : Option (List Record)
  fetchEntered : Bool
  dnsQueries : Nat
deriving Repr

/-- One `lookup(hostname, {family, all})` call for a non-literal
hostname: if the cache read finds live records the result is shaped from
them and the throttled fetch path is never entered; otherwise the fetch
closure runs and its outcome is shaped.  The output also records the
hostname's final cache slot and the number of upstream DNS queries
issued by the call. -/
def lookupModel (hostname : String) (family : Nat) (all : Bool) (now : Nat)
    (cacheSlot : Option (List Record)) (hosts : Option (List Record))
    (env : DnsEnv) : LookupOut :=
  let live := cacheLive cacheSlot now family
  if live ≠ [] then
    ⟨shape hostname family all (project live), cacheSlot, false, 0⟩
  else
    let r := runFetch hostname family hosts cacheSlot env
    ⟨r.1.bind (fun rs => shape hostname family all (project rs)),
     r.2.cacheSlot, true, r.2.dnsQueries⟩

/-! ## The hosts-file override loader (`loadHostsConfig`)

The source splits the file on line breaks, trims, drops comment lines,
splits each line on whitespace, and folds the lines into a
hostname-keyed table.  The embedding flattens the table into the list of
`(hostname, record)` pairs produced, which is what the claims quantify
over.  The IP-literal classifier `isIP` comes from Node's `net` module
(an external collaborator), so it is a parameter: `0` = not an IP
literal, `4` / `6` = the literal's family. -/

/-- JS `line.split(/\s+/)` on an already-trimmed line: the empty string
yields `[""]`, otherwise the whitespace-separated tokens (a trimmed line
has no leading or trailing whitespace, so the regex split is exactly the
nonempty tokens). -/
def jsSplitWs (s : String) : List String :=
  if s = "" then [""]
  else (s.split Char.isWhitespace).filter (fun t => t ≠ "")

/-- The source's inner loop over `segments[1..]`: each token is a
hostname alias for `address` until a `#`-token breaks the line; a
non-IP `address` makes every iteration `continue`, producing nothing. -/
def lineGo (isIP : String → Nat) (expireAt : Nat) (address : String) :
    List String → List (String × Record)
  | [] => []
  | h :: rest =>
    if h.startsWith "#" then []
    else if isIP address = 0 then lineGo isIP expireAt address rest
    else (h, ⟨address, isIP address, expireAt⟩) :: lineGo isIP expireAt address rest

/-- The `(hostname, record)` pairs one token-split line contributes. -/
def lineRecords (isIP : String → Nat) (expireAt : Nat) :
    List String → List (String × Record)
  | [] => []
  | address :: hostnames => lineGo isIP expireAt address hostnames

/-- `loadHostsConfig` flattened to the list of `(hostname, record)` pairs
it produces: split the file into lines, trim, drop `#`-comment lines,
token-split, and collect each line's records; the single `expireAt`
stamp, read once before the fold, is `load-time + MIN_TTL_SEC`. -/
def loadHostsModel (isIP : String → Nat) (loadTime : Nat) (file : String) :
    List (String × Record) :=
  (((file.split (fun c => c = '\n')).map String.trim).filter
      (fun l => ¬ l.startsWith "#")).flatMap
    (fun l => lineRecords isIP (loadTime + MIN_TTL_SEC) (jsSplitWs l))

/-! ## Concrete scenario inputs used by the closed theorems -/

/-- The upstream AAAA no-such-record failure of the C1 scenario. -/
def e6ex : Err :=
  ⟨"Error", "queryAaaa ENODATA example.test",
   some "ENODATA", some "queryAaaa", some "example.test"⟩

/-- The upstream A no-such-record failure of the C1 scenario. -/
def e4ex : Err :=
  ⟨"Error", "queryA ENODATA example.test",
   some "ENODATA", some "queryA", some "example.test"⟩

/-- C1 scenario upstream behaviour: both A and AAAA fail with
no-such-record. -/
def envC1 : DnsEnv := ⟨.error e4ex, .error e6ex, 980, 980⟩

/-- C1 scenario override table slot for `example.test`:
the record `(203.0.113.5, family 4)`. -/
def hostsC1 : Option (List Record) := some [⟨"203.0.113.5", 4, 990⟩]

/-- Upstream behaviour for the C3 scenario: the AAAA query succeeds with
one fresh record. -/
def envC3 : DnsEnv := ⟨.ok [], .ok [("2001:db8::7", 40)], 0, 500⟩

/-- An existing cache entry holding one family-6 and one family-4
record. -/
def slotC3 : List Record := [⟨"cafe::1", 6, 600⟩, ⟨"9.9.9.9", 4, 600⟩]

/-- A cache entry whose stored order puts the family-6 record before the
family-4 record; both are live at time 50. -/
def slotC6 : List Record := [⟨"::1", 6, 100⟩, ⟨"9.9.9.9", 4, 100⟩]

/-- Upstream behaviour that is never reached in the C6 cache-hit
scenarios. -/
def envC6 : DnsEnv :=
  ⟨.error ⟨"Error", "unreachable", none, none, none⟩,
   .error ⟨"Error", "unreachable", none, none, none⟩, 0, 0⟩

/-- Upstream behaviour that is never reached in the C8 cache-hit
witness. -/
def envC8 : DnsEnv :=
  ⟨.error ⟨"Error", "unreachable", none, none, none⟩,
   .error ⟨"Error", "unreachable", none, none, none⟩, 0, 0⟩

/-- A concrete IP-literal classifier for the loader witness. -/
def isIPex : String → Nat := fun s =>
  if s = "1.2.3.4" then 4 else if s = "::1" then 6 else 0

/-- A concrete hosts file: a comment line, a line with an invalid first
token, and a valid line with a trailing comment. -/
def fileEx : String :=
  "# comment\nnot-an-ip host1 host2\n1.2.3.4 goodhost alias # tail"

/-- A concrete upstream A-query failure for the aggregation witness. -/
def e4w : Err := ⟨"Error", "A failed", some "ENODATA", some "queryA", some "w.test"⟩

/-- A concrete upstream AAAA-query failure for the aggregation witness. -/
def e6w : Err := ⟨"Error", "AAAA failed", some "ENODATA", some "queryAaaa", some "w.test"⟩

/-- A fetch state in which both family queries have failed. -/
def sW : FetchState := ⟨none, [], some e4w, some e6w, true, 2⟩

/-- Decidable equality of embedded outcomes, so closed claims about
them can be settled by evaluation. -/
instance {ε α : Type} [DecidableEq ε] [DecidableEq α] :
    DecidableEq (Except ε α) := fun a b =>
  match a, b with
  | .ok x, .ok y =>
    if h : x = y then .isTrue (by rw [h])
    else .isFalse (by intro he; cases he; exact h rfl)
  | .error x, .error y =>
    if h : x = y then .isTrue (by rw [h])
    else .isFalse (by intro he; cases he; exact h rfl)
  | .ok _, .error _ => .isFalse (by intro he; exact Except.noConfusion he)
  | .error _, .ok _ => .isFalse (by intro he; exact Except.noConfusion he)

/-! ## Helper lemmas -/

/-- A line whose first token is not an IP literal contributes no records:
every iteration of the alias loop takes the `continue`. -/
theorem lineGo_eq_nil_of_invalid (isIP : String → Nat) (expireAt : Nat)
    (address : String) (hostnames : List String) (h0 : isIP address = 0) :
    lineGo isIP expireAt address hostnames = [] := by
  induction hostnames with
  | nil => rfl
  | cons h rest ih =>
    by_cases hh : h.startsWith "#"
    · simp [lineGo, hh]
    · simp [lineGo, hh, h0, ih]

/-- Every record a line contributes carries the stamp the loader fixed
before the fold. -/
theorem lineGo_expireAt (isIP : String → Nat) (expireAt : Nat)
    (address : String) (hostnames : List String) :
    ∀ p ∈ lineGo isIP expireAt address hostnames, p.2.expireAt = expireAt := by
  induction hostnames with
  | nil => intro p hp; simp [lineGo] at hp
  | cons h rest ih =>
    intro p hp
    by_cases hh : h.startsWith "#"
    · simp [lineGo, hh] at hp
    · by_cases h0 : isIP address = 0
      · simp only [lineGo, hh, h0, if_true, if_false, ite_true, ite_false] at hp
        exact ih p (by simpa [hh, h0] using hp)
      · simp only [lineGo, hh, h0, ite_false] at hp
        rcases (by simpa [hh, h0] using hp :
            p = (h, Record.mk address (isIP address) expireAt) ∨
              p ∈ lineGo isIP expireAt address rest) with hpeq | hpm
        · rw [hpeq]
        · exact ih p hpm

/-- `lineRecords` version of `lineGo_expireAt`. -/
theorem lineRecords_expireAt (isIP : String → Nat) (expireAt : Nat)
    (segments : List String) :
    ∀ p ∈ lineRecords isIP expireAt segments, p.2.expireAt = expireAt := by
  cases segments with
  | nil => intro p hp; simp [lineRecords] at hp
  | cons a hs => intro p hp; exact lineGo_expireAt isIP expireAt a hs p hp

/-- While a leader's work is in flight (the cache is clear and
`lastActive` is the leader's start time), every further call inside the
TTL window is parked in the waiter queue and changes nothing else. -/
theorem stepCalls_all_queued {ε α : Type} (interval tL q : Nat)
    (ts : List Nat) (h : ∀ ti ∈ ts, ti - tL < interval) :
    stepCalls (⟨interval, tL, none, q⟩ : ThrottleTask ε α) ts =
      (⟨interval, tL, none, q + ts.length⟩,
       List.replicate ts.length .queued) := by
  induction ts generalizing q with
  | nil => simp [stepCalls]
  | cons ti rest ih =>
    have hti : ¬ interval ≤ ti - tL :=
      Nat.not_le.mpr (h ti (List.mem_cons_self ti rest))
    have hrest : ∀ x ∈ rest, x - tL < interval :=
      fun x hx => h x (List.mem_cons_of_mem ti hx)
    simp only [stepCalls, throttleStep, if_neg hti]
    rw [ih (q + 1) hrest]
    have hq : q + 1 + rest.length = q + (rest.length + 1) := by omega
    simp [List.replicate_succ, hq]

/-! ## Claim theorems -/

/-- Claim C1 (code evaluation at the failing input): in the spec's
scenario — hostname `example.test` with override record
`(203.0.113.5, family 4)`, no cache entry, explicit family-6 request with
`wantAll = true`, the upstream AAAA (and A) query failing with
no-such-record — the code does not return the IPv4-mapped override
record `::ffff:203.0.113.5`: the synthesis block reads only the absent
`Cache[hostname]` slot (never the override-seeded result list), that read
throws, and the original AAAA error is surfaced instead. -/
theorem c1_synthesis_scenario_fails :
    (lookupModel "example.test" 6 true 980 none hostsC1 envC1).result =
      .error e6ex ∧
    (lookupModel "example.test" 6 true 980 none hostsC1 envC1).result ≠
      .ok (.many [⟨"::ffff:203.0.113.5", 6⟩]) := by
  constructor
  · rfl
  · decide

/-- Claim C2: a burst of identical calls against one throttle key with no
prior outcome — a first call at `tLead` arriving with the interval
elapsed, every other call arriving within the TTL window while the
leader's work is still in flight — executes the work exactly once (the
first caller leads, every follower is parked as a waiter), and every
caller observes the leader's single outcome, be it a value or an
error. -/
theorem c2_single_flight {ε α : Type} (interval la0 tLead : Nat)
    (followerTimes : List Nat) (o : Except ε α)
    (hLead : interval ≤ tLead - la0)
    (hFollow : ∀ ti ∈ followerTimes, ti - tLead < interval) :
    (singleFlight (⟨interval, la0, none, 0⟩ : ThrottleTask ε α) tLead
        followerTimes o).leadCount = 1 ∧
    (singleFlight (⟨interval, la0, none, 0⟩ : ThrottleTask ε α) tLead
        followerTimes o).queuedCount = followerTimes.length ∧
    (singleFlight (⟨interval, la0, none, 0⟩ : ThrottleTask ε α) tLead
        followerTimes o).observations =
      List.replicate (followerTimes.length + 1) o := by
  have hstep : throttleStep (⟨interval, la0, none, 0⟩ : ThrottleTask ε α)
      tLead = (⟨interval, tLead, none, 0⟩, .lead) := by
    simp [throttleStep, if_pos hLead]
  have hcalls : stepCalls (⟨interval, la0, none, 0⟩ : ThrottleTask ε α)
      (tLead :: followerTimes) =
      (⟨interval, tLead, none, followerTimes.length⟩,
       .lead :: List.replicate followerTimes.length .queued) := by
    simp only [stepCalls, hstep]
    rw [stepCalls_all_queued interval tLead 0 followerTimes hFollow]
    simp
  refine ⟨?_, ?_, ?_⟩ <;>
    simp [singleFlight, hcalls, List.filter_replicate, StepKind.isLead,
      StepKind.isQueued, List.map_replicate, observe, List.replicate_succ]

/-- Closed witness for `c2_single_flight`: interval 10, leader at 100,
three followers inside the window, the work failing; one execution, three
waiters, and all four callers observe the same error. -/
theorem c2_single_flight_witness :
    (singleFlight (⟨10, 0, none, 0⟩ : ThrottleTask String String) 100
        [101, 105, 109] (.error "boom")).leadCount = 1 ∧
    (singleFlight (⟨10, 0, none, 0⟩ : ThrottleTask String String) 100
        [101, 105, 109] (.error "boom")).queuedCount = 3 ∧
    (singleFlight (⟨10, 0, none, 0⟩ : ThrottleTask String String) 100
        [101, 105, 109] (.error "boom")).observations =
      List.replicate 4 (.error "boom") :=
  c2_single_flight 10 0 100 [101, 105, 109] (.error "boom") (by decide)
    (by decide)

/-- Claim C3 (code evaluation at the failing input): the cache write of a
successful family-6 fetch does not refresh the entry: the filtered and
extended list is discarded by the reassignment `cacheSlot =
Cache[hostname]`, so an existing entry keeps its old family-6 record
`cafe::1` and never receives the freshly fetched `2001:db8::7`. -/
theorem c3_v6_write_discarded :
    (runV6 envC3 6 ⟨some slotC3, [], none, none, false, 0⟩).cacheSlot =
      some slotC3 ∧
    Record.mk "cafe::1" 6 600 ∈ slotC3 ∧
    Record.mk "2001:db8::7" 6 540 ∉ slotC3 := by
  decide

/-- Claim C4: a call arriving within the TTL interval of a task that
holds a cached outcome is served exactly that outcome — the value is
returned, a stored error is re-raised unchanged — with the task state
untouched; the call never leads, so the work is not invoked again. -/
theorem c4_cached_outcome_served {ε α : Type} (t : ThrottleTask ε α)
    (now : Nat) (o : Except ε α)
    (hin : now - t.lastActive < t.interval) (hc : t.cache = some o) :
    throttleStep t now = (t, .served o) ∧
    (throttleStep t now).2.isLead = false := by
  have hstep : throttleStep t now = (t, .served o) := by
    simp only [throttleStep]
    rw [if_neg (Nat.not_le.mpr hin), hc]
  exact ⟨hstep, by rw [hstep]; rfl⟩

/-- Closed witness for `c4_cached_outcome_served`, with a cached failure:
the stored error is re-raised as-is and nothing runs. -/
theorem c4_cached_outcome_served_witness :
    throttleStep
        (⟨10, 100, some (Except.error "cached failure"), 0⟩ :
          ThrottleTask String Nat) 105 =
      ((⟨10, 100, some (Except.error "cached failure"), 0⟩ :
          ThrottleTask String Nat),
       .served (Except.error "cached failure")) ∧
    (throttleStep
        (⟨10, 100, some (Except.error "cached failure"), 0⟩ :
          ThrottleTask String Nat) 105).2.isLead = false :=
  c4_cached_outcome_served _ 105 _ (by decide) rfl

/-- Claim C5 (code evaluation at the failing input): the source stamps a
fetched record with `Math.max(ttl + now, MIN_TTL_SEC)` rather than
`now + max(ttl, MIN_TTL_SEC)`: at `now = 1000000` an authoritative ttl of
`0` yields `expireAt = 1000000` — the record expires immediately instead
of carrying the claimed `now + max(ttl, MIN_TTL_SEC) = 1000010`. -/
theorem c5_min_ttl_misplaced :
    stampRecords 4 1000000 [("1.2.3.4", 0)] = [⟨"1.2.3.4", 4, 1000000⟩] ∧
    1000000 + max 0 MIN_TTL_SEC = 1000010 ∧ (1000000 : Nat) ≠ 1000010 := by
  decide

/-- Claim C6 counterexample: a cache entry holding live records of both
families but storing the family-6 record first — a state reachable by a
family-6 fetch followed by a family-4 refresh, which appends the new
family-4 records after the preserved family-6 ones.  A family-unspecified
single-result lookup returns its first stored address `::1`, not the
entry's IPv4 address `9.9.9.9`. -/
theorem c6_counterexample :
    (lookupModel "h.test" 0 false 50 (some slotC6) none envC6).result =
      .ok (.single "::1") ∧
    Record.mk "::1" 6 100 ∈ slotC6 ∧
    Record.mk "9.9.9.9" 4 100 ∈ slotC6 ∧
    (Except.ok (Shaped.single "::1") : Except Err Shaped) ≠
      .ok (.single "9.9.9.9") := by
  decide

/-- Claim C6 as amended: a family-unspecified, single-result lookup over
a live cache entry returns the address of the first live record in the
entry's stored order; in particular, when that first record is an IPv4
one (as it is whenever the entry was filled by a single
unspecified-family fetch, which merges IPv4 before IPv6), the IPv4
address is returned. -/
theorem c6_first_stored_record (hostname : String) (now : Nat)
    (entry rest : List Record) (r : Record)
    (hosts : Option (List Record)) (env : DnsEnv)
    (hlive : cacheLive (some entry) now 0 = r :: rest)
    (h4 : r.family = 4) :
    (lookupModel hostname 0 false now (some entry) hosts env).result =
      .ok (.single r.address) ∧ r.family = 4 := by
  refine ⟨?_, h4⟩
  simp [lookupModel, hlive, shape, project]

/-- Closed witness for `c6_first_stored_record`: both families live,
the family-4 record stored first, the IPv4 address returned. -/
theorem c6_first_stored_record_witness :
    (lookupModel "h.test" 0 false 50
        (some [⟨"9.9.9.9", 4, 100⟩, ⟨"::1", 6, 100⟩]) none envC6).result =
      .ok (.single "9.9.9.9") ∧
    (Record.mk "9.9.9.9" 4 100).family = 4 :=
  c6_first_stored_record "h.test" 50 [⟨"9.9.9.9", 4, 100⟩, ⟨"::1", 6, 100⟩]
    [⟨"::1", 6, 100⟩] ⟨"9.9.9.9", 4, 100⟩ none envC6 (by decide) rfl

/-- Claim C7: when both family queries failed on a family-unspecified
request, the fetch raises the one synthesized aggregated error: it names
the hostname in its `hostname` field and its message, it is the same
object whatever the two underlying errors were (they do not occur in
it), and it is not identical to either underlying error (their `syscall`
fields name the failing query, while the aggregated error's is
absent). -/
theorem c7_aggregated_error (hostname : String) (s : FetchState)
    (e4 e6 : Err) (h4 : s.err4 = some e4) (h6 : s.err6 = some e6)
    (hs4 : e4.syscall = some "queryA") (hs6 : e6.syscall = some "queryAaaa") :
    finishFetch hostname 0 s = .error (mkAggErr hostname) ∧
    (mkAggErr hostname).hostname = some hostname ∧
    (mkAggErr hostname).message =
      "queryA and queryAaaa ENODATA " ++ hostname ∧
    mkAggErr hostname ≠ e4 ∧ mkAggErr hostname ≠ e6 := by
  refine ⟨?_, rfl, rfl, ?_, ?_⟩
  · simp [finishFetch, h4, h6]
  · intro he; rw [← he] at hs4; simp [mkAggErr] at hs4
  · intro he; rw [← he] at hs6; simp [mkAggErr] at hs6

/-- Closed witness for `c7_aggregated_error` at a concrete failed fetch
state. -/
theorem c7_aggregated_error_witness :
    finishFetch "w.test" 0 sW = .error (mkAggErr "w.test") ∧
    (mkAggErr "w.test").hostname = some "w.test" ∧
    (mkAggErr "w.test").message =
      "queryA and queryAaaa ENODATA " ++ "w.test" ∧
    mkAggErr "w.test" ≠ e4w ∧ mkAggErr "w.test" ≠ e6w :=
  c7_aggregated_error "w.test" sW e4w e6w rfl rfl rfl rfl

/-- Claim C8: whenever the cache read finds at least one live record
matching the requested family (any family when unspecified), the lookup
answers from the cache: the throttled fetch path is never entered, no
upstream DNS query is issued, and the hostname's cache entry is left
exactly as it was. -/
theorem c8_cache_hit_frame (hostname : String) (family : Nat) (all : Bool)
    (now : Nat) (slot hosts : Option (List Record)) (env : DnsEnv)
    (hlive : cacheLive slot now family ≠ []) :
    (lookupModel hostname family all now slot hosts env).fetchEntered =
      false ∧
    (lookupModel hostname family all now slot hosts env).dnsQueries = 0 ∧
    (lookupModel hostname family all now slot hosts env).cacheSlot = slot := by
  refine ⟨?_, ?_, ?_⟩ <;> simp [lookupModel, hlive]

/-- Closed witness for `c8_cache_hit_frame`: one live family-4 record,
family 4 requested. -/
theorem c8_cache_hit_frame_witness :
    (lookupModel "h8.test" 4 false 50 (some [⟨"9.9.9.9", 4, 100⟩]) none
        envC8).fetchEntered = false ∧
    (lookupModel "h8.test" 4 false 50 (some [⟨"9.9.9.9", 4, 100⟩]) none
        envC8).dnsQueries = 0 ∧
    (lookupModel "h8.test" 4 false 50 (some [⟨"9.9.9.9", 4, 100⟩]) none
        envC8).cacheSlot = some [⟨"9.9.9.9", 4, 100⟩] :=
  c8_cache_hit_frame "h8.test" 4 false 50 (some [⟨"9.9.9.9", 4, 100⟩])
    none envC8 (by decide)

/-- Claim C9: the hosts loader skips entirely — no partial use — every
line whose first whitespace token the IP classifier rejects, and every
record one load call produces carries the one expiration
`load-time + MIN_TTL_SEC` stamped before the fold. -/
theorem c9_hosts_loader (isIP : String → Nat) (loadTime : Nat)
    (file : String) (address : String) (hostnames : List String)
    (h0 : isIP address = 0) :
    lineRecords isIP (loadTime + MIN_TTL_SEC) (address :: hostnames) = [] ∧
    (loadHostsModel isIP loadTime file).all
      (fun p => p.2.expireAt = loadTime + MIN_TTL_SEC) = true := by
  constructor
  · exact lineGo_eq_nil_of_invalid isIP _ address hostnames h0
  · rw [List.all_eq_true]
    intro p hp
    simp only [decide_eq_true_eq]
    simp only [loadHostsModel, List.mem_flatMap] at hp
    obtain ⟨l, -, hpl⟩ := hp
    exact lineRecords_expireAt isIP (loadTime + MIN_TTL_SEC) (jsSplitWs l)
      p hpl

/-- Closed witness for `c9_hosts_loader` on a concrete file: the
invalid-first-token line contributes nothing, and every produced record
expires at `20 + MIN_TTL_SEC`. -/
theorem c9_hosts_loader_witness :
    lineRecords isIPex (20 + MIN_TTL_SEC) ("not-an-ip" :: ["host1", "host2"]) = [] ∧
    (loadHostsModel isIPex 20 fileEx).all
      (fun p => p.2.expireAt = 20 + MIN_TTL_SEC) = true :=
  c9_hosts_loader isIPex 20 fileEx "not-an-ip" ["host1", "host2"] (by decide)

/-- Claim C10: `useThrottle` called with an interval strictly below 1
throws the `RangeError` before any task is created or consulted, leaving
the task registry exactly as it was. -/
theorem c10_use_throttle_range_error (resource : String) (interval : Int)
    (backgroundUpdate : Bool) (tasks : List (String × TaskEntry))
    (h : interval < 1) :
    useThrottleModel resource interval backgroundUpdate tasks =
      (some rangeErr, tasks) ∧
    rangeErr.name = "RangeError" :=
  ⟨by simp [useThrottleModel, h], rfl⟩

/-- Closed witness for `c10_use_throttle_range_error` at interval 0 on an
empty registry. -/
theorem c10_use_throttle_range_error_witness :
    useThrottleModel "dnsLookup:loadHostsConfig" 0 false [] =
      (some rangeErr, []) ∧
    rangeErr.name = "RangeError" :=
  c10_use_throttle_range_error "dnsLookup:loadHostsConfig" 0 false []
    (by decide)
